import Mathlib

set_option maxRecDepth 200000

/-!
Verification development for the pinscrper repository.

The definitions below are shallow embeddings of the Python sources:
`database.py`, `cron_scraper.py`, `production_pipeline.py`,
`image_downloader.py`, `pinterest_scraper.py`, `automated_scraper.py` and
`api/scraper_service.py`.  Pure data manipulation is translated into Lean
functions; the SQLite pins table becomes an insertion-ordered list of rows
with the `UNIQUE pin_id` constraint reflected in the insert operation;
external effects (the Selenium page reader, HTTP image fetches, the Mongo
store, raised exceptions) become explicit oracle parameters, so each claim
quantifies over every behaviour the external collaborator can show.
-/

/-- A pin record, as the dictionaries produced by the scrapers and as the
columns stored by `database.py` in the `pins` table (`pin_id`, `pin_url`,
`image_url`, `title`, `description`; `board_id` and timestamps are
bookkeeping that no claim depends on). -/
structure Pin where
  pin_id : String
  pin_url : String := ""
  image_url : String := ""
  title : String := ""
  description : String := ""
deriving DecidableEq, Repr

/-- The `pins` table of `database.py`, as an insertion-ordered list of rows. -/
abbrev PinsTable := List Pin

/-- `PinterestDatabase.add_pin` (database.py lines 97-126): an
`INSERT OR IGNORE` into a table whose `pin_id` column is `UNIQUE`
(database.py line 34), so inserting a row whose `pin_id` is already present
is a no-op. -/
def add_pin (db : PinsTable) (p : Pin) : PinsTable :=
  if db.any (fun r => r.pin_id = p.pin_id) then db else db ++ [p]

/-- `PinterestDatabase.save_pin` (database.py lines 271-287): resolves the
board row (which does not affect the pins table's contents beyond the
`board_id` bookkeeping column) and then calls `add_pin`. -/
def save_pin (db : PinsTable) (p : Pin) : PinsTable :=
  add_pin db p

/-- The pin ids present in the store, as collected by
`CronScraper.get_existing_pin_ids` (cron_scraper.py lines 66-73) and by the
inline set comprehension of `ProductionPinterestPipeline.scrape_board_with_resilience`
(production_pipeline.py line 91): the set of `pin_id` values of all stored
pins, skipping falsy (empty) ids. -/
def existing_pin_ids (db : PinsTable) : List String :=
  (db.map (fun r => r.pin_id)).filter (fun s => s ≠ "")

/-- The filtering step of `CronScraper.scrape_new_pins` (cron_scraper.py
lines 87-92): keep only the scraped pins whose `pin_id` is not in the
existing-id set. -/
def scrape_new_pins (scraped : List Pin) (existing : List String) : List Pin :=
  scraped.filter (fun p => p.pin_id ∉ existing)

/-- `CronScraper.save_new_pins` (cron_scraper.py lines 110-153): save each
new pin through `PinterestDatabase.save_pin`. -/
def save_new_pins (db : PinsTable) (new_pins : List Pin) : PinsTable :=
  new_pins.foldl save_pin db

/-- The state threaded through `CronScraper.run_daily_scrape`'s board loop:
the persistent store and the in-memory set of already-known pin ids. -/
structure CronState where
  db : PinsTable
  existing : List String
deriving Repr

/-- One iteration of the board loop of `CronScraper.run_daily_scrape`
(cron_scraper.py lines 175-193): filter the board's scraped pins against
the current existing-id set, save the new ones, then add every new pin's
truthy (non-empty) `pin_id` to the set before the next board. -/
def process_board (st : CronState) (scraped : List Pin) : CronState :=
  let new_pins := scrape_new_pins scraped st.existing
  let db' := save_new_pins st.db new_pins
  let added := (new_pins.map (fun p => p.pin_id)).filter (fun s => s ≠ "")
  { db := db', existing := st.existing ++ added }

/-- `CronScraper.run_daily_scrape` (cron_scraper.py lines 155-218) with the
per-board scrape results supplied as input: seed the existing-id set from
the database, then process each board in order. -/
def run_daily_scrape (db : PinsTable) (boardScrapes : List (List Pin)) : CronState :=
  boardScrapes.foldl process_board { db := db, existing := existing_pin_ids db }

/-! ## Production pipeline (production_pipeline.py, image_downloader.py) -/

/-- Outcome of one `scraper.scrape_board` call as observed by
`scrape_board_with_resilience` (production_pipeline.py lines 97-167):
either the returned dict contains an `error` key, or the call raised an
exception, or it succeeded with a list of pin dicts. -/
inductive ScrapeAttempt where
  | errorResult (msg : String)
  | exn (msg : String)
  | ok (pins : List Pin)
deriving DecidableEq, Repr

/-- Whether an attempt counts as a failure for the retry loop. -/
def attemptFails : ScrapeAttempt → Bool
  | .ok _ => false
  | _ => true

/-- The counters returned by `ImageDownloader.download_pin_images`
(image_downloader.py lines 177-214).  The `skipped` counter is initialized
but never incremented in the source. -/
structure DownloadResults where
  downloaded : Nat := 0
  failed : Nat := 0
  skipped : Nat := 0
  thumbnails_created : Nat := 0
  files : List String := []
deriving DecidableEq, Repr

/-- The loop body of `ImageDownloader.download_pin_images`
(image_downloader.py lines 189-211), with the network and filesystem
behaviour of `download_image` / `create_thumbnail` supplied as oracles:
`fetch` returns the saved image path when the download passed validation
(reachable URL, `image/` content type, at least 50x50 pixels) and `none`
when it was rejected; `thumb` returns the created thumbnail path, if
any.  A rejected download increments `failed`; a validated one increments
`downloaded`. -/
def download_step (fetch : Pin → Option String) (thumb : String → Option String)
    (acc : DownloadResults) (p : Pin) : DownloadResults :=
  match fetch p with
  | some path =>
    match thumb path with
    | some tpath =>
      { acc with downloaded := acc.downloaded + 1,
                 thumbnails_created := acc.thumbnails_created + 1,
                 files := acc.files ++ [path, tpath] }
    | none =>
      { acc with downloaded := acc.downloaded + 1, files := acc.files ++ [path] }
  | none => { acc with failed := acc.failed + 1 }

/-- `ImageDownloader.download_pin_images` (image_downloader.py lines
177-214): fold `download_step` over the pins, starting from zeroed
counters. -/
def download_pin_images (fetch : Pin → Option String) (thumb : String → Option String)
    (pins : List Pin) : DownloadResults :=
  pins.foldl (download_step fetch thumb) {}

/-- `max_retries` of `scrape_board_with_resilience`
(production_pipeline.py line 95). -/
def max_retries : Nat := 3

/-- The result dict of `scrape_board_with_resilience`
(production_pipeline.py lines 151-159 on success, lines 171-180 on
exhausted retries), with the success-path and failure-path keys merged
into one record. -/
structure BoardOutcome where
  board_url : String
  success : Bool
  pins_found : Nat := 0
  new_pins : Nat := 0
  pins_saved : Nat := 0
  downloaded : Nat := 0
  failedDownloads : Nat := 0
  retry_count : Nat
  error : Option String := none
deriving DecidableEq, Repr

/-- The dict returned after all retries failed
(production_pipeline.py lines 171-180). -/
def exhaustedOutcome (board_url : String) : BoardOutcome :=
  { board_url := board_url, success := false, retry_count := max_retries,
    error := some "Failed after 3 retry attempts" }

/-- The retry loop of `scrape_board_with_resilience`
(production_pipeline.py lines 97-180).  `attempts rc` is the outcome of the
`scrape_board` call made while `retry_count = rc`; `existing` is the
existing-id set computed once before the loop; `fuel` is
`max_retries - retry_count`, so the structural recursion mirrors the
`while retry_count < max_retries` condition.  The returned triple is the
result dict, the updated pins table, and the list of backoff delays slept
(in seconds): after a failed attempt the loop increments `retry_count` and,
if it is still below `max_retries`, sleeps `30 * retry_count` seconds when
the attempt returned an error result (line 106) and `60 * retry_count`
seconds when it raised (line 165).  On a successful attempt the new pins
are filtered against `existing`, saved through `save_pin`, and their images
downloaded. -/
def resilience_loop (attempts : Nat → ScrapeAttempt) (fetch : Pin → Option String)
    (thumb : String → Option String) (existing : List String) (board_url : String) :
    Nat → Nat → PinsTable → BoardOutcome × PinsTable × List Nat
  | 0, _, db => (exhaustedOutcome board_url, db, [])
  | fuel + 1, rc, db =>
    match attempts rc with
    | .ok pins =>
      let new_pins := scrape_new_pins pins existing
      let db' := save_new_pins db new_pins
      let dr := download_pin_images fetch thumb new_pins
      ({ board_url := board_url, success := true, pins_found := pins.length,
         new_pins := new_pins.length, pins_saved := new_pins.length,
         downloaded := dr.downloaded, failedDownloads := dr.failed,
         retry_count := rc }, db', [])
    | .errorResult _ =>
      let rc' := rc + 1
      let waits := if rc' < max_retries then [30 * rc'] else []
      let rest := resilience_loop attempts fetch thumb existing board_url fuel rc' db
      (rest.1, rest.2.1, waits ++ rest.2.2)
    | .exn _ =>
      let rc' := rc + 1
      let waits := if rc' < max_retries then [60 * rc'] else []
      let rest := resilience_loop attempts fetch thumb existing board_url fuel rc' db
      (rest.1, rest.2.1, waits ++ rest.2.2)

/-- `ProductionPinterestPipeline.scrape_board_with_resilience`
(production_pipeline.py lines 85-180): compute the existing-id set from the
database, then run the retry loop with `retry_count = 0`. -/
def scrape_board_with_resilience (attempts : Nat → ScrapeAttempt)
    (fetch : Pin → Option String) (thumb : String → Option String)
    (db : PinsTable) (board_url : String) : BoardOutcome × PinsTable × List Nat :=
  resilience_loop attempts fetch thumb (existing_pin_ids db) board_url max_retries 0 db

/-- `ProductionPinterestPipeline.run_production_pipeline`
(production_pipeline.py lines 202-219), loop body: scrape one board with
resilience against the current store and append the result dict to
`boards_stats`. -/
def pipeline_step (attempts : String → Nat → ScrapeAttempt)
    (fetch : Pin → Option String) (thumb : String → Option String)
    (acc : List BoardOutcome × PinsTable) (url : String) :
    List BoardOutcome × PinsTable :=
  let r := scrape_board_with_resilience (attempts url) fetch thumb acc.2 url
  (acc.1 ++ [r.1], r.2.1)

/-- Whether `ProductionPinterestPipeline.initialize_scraper`
(production_pipeline.py lines 49-66) succeeds.  Its body calls
`PinterestScraper(headless=True, delay=2)` (line 53), but the
`PinterestScraper` it imports from pinterest_scraper.py takes
`__init__(self, config_path)` (line 70) and accepts neither keyword, so
the call raises `TypeError` on every run; the `except` at lines 64-66
catches it and returns `False`. -/
def initialize_scraper_ok : Bool := false

/-- Whether `ProductionPinterestPipeline.generate_final_report`
(production_pipeline.py lines 248-297) returns without raising.  It
builds `report_data` whose `stats` entry is `self.stats` containing
`start_time := datetime.now()` (line 30) and passes it to `json.dump`
(line 294); `json` has no `datetime` encoder, so the dump raises
`TypeError` on every run. -/
def generate_final_report_ok : Bool := false

/-- `ProductionPinterestPipeline.run_production_pipeline`
(production_pipeline.py lines 182-246): abort with `False` when the
scraper cannot be initialized or no boards are configured; otherwise
process every board in order through `scrape_board_with_resilience`,
appending each result to `boards_stats` (individual board failures do
not affect control flow), then call `generate_final_report` and return
`True` — except that when the report raises, the handler at lines
234-238 catches the exception and returns `False` with the accumulated
`boards_stats` intact on the object. -/
def run_production_pipeline (initOk : Bool) (boards : List String)
    (attempts : String → Nat → ScrapeAttempt) (fetch : Pin → Option String)
    (thumb : String → Option String) (db : PinsTable) :
    Bool × List BoardOutcome × PinsTable :=
  if initOk = false then (false, [], db)
  else if boards.isEmpty then (false, [], db)
  else
    let final := boards.foldl (pipeline_step attempts fetch thumb) ([], db)
    if generate_final_report_ok then (true, final.1, final.2)
    else (false, final.1, final.2)

/-! ## Python string primitives

The claims evaluate string manipulation on concrete inputs, so the Python
`str` operations used by the scrapers (`split`, `replace`, `in`,
`endswith`) are embedded as structurally recursive functions on character
lists (Lean's built-in `String` loops do not reduce inside the kernel).
The fuel arguments are set to the input length plus one, which every
branch respects because each step consumes at least one character. -/

/-- Whether `p` is an initial run of `s`. -/
def leadsWith : List Char → List Char → Bool
  | [], _ => true
  | _ :: _, [] => false
  | p :: ps, c :: cs => p = c && leadsWith ps cs

/-- Worker for `pySplit`: scan `s`, cutting at each non-overlapping
occurrence of the (non-empty) separator, with the characters of the
current fragment accumulated in reverse. -/
def splitChars (sep : List Char) : Nat → List Char → List Char → List (List Char)
  | 0, cur, s => [cur.reverse ++ s]
  | fuel + 1, cur, s =>
    if leadsWith sep s then cur.reverse :: splitChars sep fuel [] (s.drop sep.length)
    else
      match s with
      | [] => [cur.reverse]
      | c :: cs => splitChars sep fuel (c :: cur) cs

/-- Python's `s.split(sep)` for a non-empty separator. -/
def pySplit (s sep : String) : List String :=
  (splitChars sep.data (s.data.length + 1) [] s.data).map String.mk

/-- Worker for `pyReplace`. -/
def replaceChars (pat rep : List Char) : Nat → List Char → List Char
  | 0, s => s
  | fuel + 1, s =>
    if leadsWith pat s then rep ++ replaceChars pat rep fuel (s.drop pat.length)
    else
      match s with
      | [] => []
      | c :: cs => c :: replaceChars pat rep fuel cs

/-- Python's `s.replace(pat, rep)` for a non-empty pattern: replace every
non-overlapping occurrence, left to right. -/
def pyReplace (s pat rep : String) : String :=
  String.mk (replaceChars pat.data rep.data (s.data.length + 1) s.data)

/-- Python's `s.endswith(suffix)`. -/
def pyEndsWith (s suf : String) : Bool :=
  leadsWith suf.data.reverse s.data.reverse

/-! ## DOM crawler (pinterest_scraper.py) -/

/-- Whether `pat` occurs in `s`, as Python's `pat in s`: splitting on a
non-empty pattern yields more than one part exactly when the pattern
occurs. -/
def containsSub (s pat : String) : Bool :=
  (pySplit s pat).length ≥ 2

/-- A pin DOM element as observed by `_extract_pin_data`
(pinterest_scraper.py lines 333-398): the `data-test-pin-id` attribute
(`none` when `get_attribute` returns `None`), the `href` of the first `a`
child (`none` when `find_element` raises), the `src` and `alt` of the first
`img` child (`none` when the element is missing), the text of the first
pin-description child if present, and likewise for the board-owner text. -/
structure PinElem where
  dataTestPinId : Option String := none
  linkHref : Option String := none
  imgSrc : Option String := none
  imgAlt : Option String := none
  descText : Option String := none
  authorText : Option String := none
deriving DecidableEq, Repr

/-- The `/pin/` URL-segment extraction of `_extract_pin_data`
(pinterest_scraper.py lines 340-343): when `"/pin/"` occurs in `href`,
`href.split("/pin/")[1].split("/")[0]`. -/
def pinIdFromHref (href : String) : Option String :=
  if containsSub href "/pin/" then
    some ((pySplit (((pySplit href "/pin/").drop 1).headD "") "/").headD "")
  else none

/-- The pin-id resolution of `_extract_pin_data` (pinterest_scraper.py
lines 336-346): take the `data-test-pin-id` attribute; when that is falsy
(absent or empty), look up the first link's `/pin/` URL segment (a missing
link raises, which the enclosing handler turns into `None`); when the
resulting id is still falsy, the element yields no pin. -/
def extract_pin_id (e : PinElem) : Option String :=
  let fromAttr := e.dataTestPinId.getD ""
  if fromAttr ≠ "" then some fromAttr
  else
    match e.linkHref with
    | none => none
    | some href =>
      match pinIdFromHref href with
      | some s => if s = "" then none else some s
      | none => none

/-- The image-URL upscaling of `_extract_pin_data` (pinterest_scraper.py
lines 352-356). -/
def upscale_image_url (src : String) : String :=
  if containsSub src "236x" then pyReplace src "236x" "736x"
  else if containsSub src "474x" then pyReplace src "474x" "736x"
  else src

/-- The board-name extraction of `_extract_pin_data` (pinterest_scraper.py
line 371): `board_url.split("/")[-2]` when the URL ends in a slash (an
IndexError from a too-short URL propagates to the handler, yielding
`None`), else `board_url.split("/")[-1]`. -/
def board_name_of (board_url : String) : Option String :=
  let parts := pySplit board_url "/"
  if pyEndsWith board_url "/" then
    if parts.length ≥ 2 then some ((parts.drop (parts.length - 2)).headD "") else none
  else parts.getLast?

/-- The author extraction of `_extract_pin_data` (pinterest_scraper.py
lines 374-383): the board-owner element's text when present, else
`board_url.split("/")[3]` when the URL has more than three parts, else the
empty string. -/
def author_of (e : PinElem) (board_url : String) : String :=
  match e.authorText with
  | some a => a
  | none =>
    let parts := pySplit board_url "/"
    if parts.length > 3 then (parts.drop 3).headD "" else ""

/-- The dict built by `_extract_pin_data` (pinterest_scraper.py lines
385-394); the `scraped_at` wall-clock timestamp is omitted. -/
structure ExtractedPin where
  pin_id : String
  title : String
  description : String
  image_url : String
  board_name : String
  board_url : String
  author : String
deriving DecidableEq, Repr

/-- `PinterestScraper._extract_pin_data` (pinterest_scraper.py lines
333-398): resolve the pin id (else yield nothing); read the first image's
`src` (a missing image raises, yielding nothing) and upscale it; title is
the image's `alt` or the empty string; description is the description
element's text or the empty string. -/
def extract_pin_data (e : PinElem) (board_url : String) : Option ExtractedPin :=
  match extract_pin_id e with
  | none => none
  | some pid =>
    match e.imgSrc with
    | none => none
    | some src =>
      match board_name_of board_url with
      | none => none
      | some bname =>
        some { pin_id := pid, title := e.imgAlt.getD "",
               description := e.descText.getD "",
               image_url := upscale_image_url src, board_name := bname,
               board_url := board_url, author := author_of e board_url }

/-- The inner `for pin_element in pin_elements` loop of
`extract_board_pins` (pinterest_scraper.py lines 301-313): extract each
element, and append the result when the collection is still below
`max_pins` and the pin id was not already collected in this session. -/
def collect_pins (board_url : String) (max_pins : Nat) (pes : List PinElem)
    (acc : List ExtractedPin) : List ExtractedPin :=
  pes.foldl
    (fun acc e =>
      if acc.length ≥ max_pins then acc
      else
        match extract_pin_data e board_url with
        | none => acc
        | some pd =>
          if (acc.map (fun p => p.pin_id)).contains pd.pin_id then acc
          else acc ++ [pd])
    acc

/-- `max_scroll_attempts` (pinterest_scraper.py line 295). -/
def max_scroll_attempts : Nat := 20

/-- The scroll loop of `extract_board_pins` (pinterest_scraper.py lines
297-324).  `elems t` is the list of pin elements the DOM shows after `t`
scrolls (`elems 0` is the initial page); `t` is the current
`scroll_attempts` value and `fuel = max_scroll_attempts - t`.  Each
iteration collects from the current elements, scrolls, increments the
counter, and stops as soon as the scroll left the number of pin elements
unchanged (lines 321-324).  The returned pair is the collected pins and
the final `scroll_attempts` value. -/
def extract_loop (elems : Nat → List PinElem) (board_url : String) (max_pins : Nat) :
    Nat → Nat → List ExtractedPin → List ExtractedPin × Nat
  | 0, t, acc => (acc, t)
  | fuel + 1, t, acc =>
    if acc.length < max_pins then
      let pes := elems t
      let acc' := collect_pins board_url max_pins pes acc
      if (elems (t + 1)).length = pes.length then (acc', t + 1)
      else extract_loop elems board_url max_pins fuel (t + 1) acc'
    else (acc, t)

/-- `PinterestScraper.extract_board_pins` (pinterest_scraper.py lines
279-331).  `initialLoadOk` records whether the initial page produced a pin
element within the `WebDriverWait` budget; when it did not (or any other
exception escapes the body), the `except` at lines 329-331 logs the error
and returns the empty list — a normal return, not a raise.  Otherwise the
scroll loop runs from `scroll_attempts = 0`. -/
def extract_board_pins (initialLoadOk : Bool) (elems : Nat → List PinElem)
    (board_url : String) (max_pins : Nat) : List ExtractedPin × Nat :=
  if initialLoadOk then extract_loop elems board_url max_pins max_scroll_attempts 0 []
  else ([], 0)

/-! ## MD5, as used by `hashlib.md5(...).hexdigest()` in
`AutomatedPinterestScraper._generate_pin_id` (automated_scraper.py lines
91-94).  Machine words are `Nat` values kept below `2^32` by explicit
masking. -/

/-- Addition modulo `2^32`. -/
def add32 (x y : Nat) : Nat := (x + y) % 4294967296

/-- Bitwise complement on 32 bits. -/
def not32 (x : Nat) : Nat := 4294967295 ^^^ x

/-- Left rotation of a 32-bit word. -/
def rotl32 (x n : Nat) : Nat := ((x <<< n) ||| (x >>> (32 - n))) &&& 4294967295

/-- The 64 MD5 sine-derived constants `K[i] = floor(2^32 * abs(sin(i+1)))`. -/
def md5K : List Nat :=
  [0xd76aa478, 0xe8c7b756, 0x242070db, 0xc1bdceee,
   0xf57c0faf, 0x4787c62a, 0xa8304613, 0xfd469501,
   0x698098d8, 0x8b44f7af, 0xffff5bb1, 0x895cd7be,
   0x6b901122, 0xfd987193, 0xa679438e, 0x49b40821,
   0xf61e2562, 0xc040b340, 0x265e5a51, 0xe9b6c7aa,
   0xd62f105d, 0x02441453, 0xd8a1e681, 0xe7d3fbc8,
   0x21e1cde6, 0xc33707d6, 0xf4d50d87, 0x455a14ed,
   0xa9e3e905, 0xfcefa3f8, 0x676f02d9, 0x8d2a4c8a,
   0xfffa3942, 0x8771f681, 0x6d9d6122, 0xfde5380c,
   0xa4beea44, 0x4bdecfa9, 0xf6bb4b60, 0xbebfbc70,
   0x289b7ec6, 0xeaa127fa, 0xd4ef3085, 0x04881d05,
   0xd9d4d039, 0xe6db99e5, 0x1fa27cf8, 0xc4ac5665,
   0xf4292244, 0x432aff97, 0xab9423a7, 0xfc93a039,
   0x655b59c3, 0x8f0ccc92, 0xffeff47d, 0x85845dd1,
   0x6fa87e4f, 0xfe2ce6e0, 0xa3014314, 0x4e0811a1,
   0xf7537e82, 0xbd3af235, 0x2ad7d2bb, 0xeb86d391]

/-- The 64 per-round left-rotation amounts. -/
def md5S : List Nat :=
  [7, 12, 17, 22, 7, 12, 17, 22, 7, 12, 17, 22, 7, 12, 17, 22,
   5, 9, 14, 20, 5, 9, 14, 20, 5, 9, 14, 20, 5, 9, 14, 20,
   4, 11, 16, 23, 4, 11, 16, 23, 4, 11, 16, 23, 4, 11, 16, 23,
   6, 10, 15, 21, 6, 10, 15, 21, 6, 10, 15, 21, 6, 10, 15, 21]

/-- The round-dependent mixing function. -/
def md5F (i b c d : Nat) : Nat :=
  if i < 16 then (b &&& c) ||| (not32 b &&& d)
  else if i < 32 then (d &&& b) ||| (not32 d &&& c)
  else if i < 48 then b ^^^ c ^^^ d
  else c ^^^ (b ||| not32 d)

/-- The round-dependent message-word index. -/
def md5G (i : Nat) : Nat :=
  if i < 16 then i
  else if i < 32 then (5 * i + 1) % 16
  else if i < 48 then (3 * i + 5) % 16
  else (7 * i) % 16

/-- One MD5 round on the running state `(a, b, c, d)`. -/
def md5Round (M : List Nat) (s : Nat × Nat × Nat × Nat) (i : Nat) :
    Nat × Nat × Nat × Nat :=
  let f := md5F i s.2.1 s.2.2.1 s.2.2.2
  let tmp := add32 (add32 (add32 s.1 f) (md5K.getD i 0)) (M.getD (md5G i) 0)
  let b' := add32 s.2.1 (rotl32 tmp (md5S.getD i 0))
  (s.2.2.2, b', s.2.1, s.2.2.1)

/-- Process one 64-byte block: decode it into 16 little-endian words, run
the 64 rounds, and add the result back into the incoming state. -/
def md5Block (s : Nat × Nat × Nat × Nat) (block : List Nat) :
    Nat × Nat × Nat × Nat :=
  let M := (List.range 16).map (fun j =>
    block.getD (4 * j) 0 + 256 * block.getD (4 * j + 1) 0 +
    65536 * block.getD (4 * j + 2) 0 + 16777216 * block.getD (4 * j + 3) 0)
  let r := (List.range 64).foldl (md5Round M) s
  (add32 s.1 r.1, add32 s.2.1 r.2.1, add32 s.2.2.1 r.2.2.1, add32 s.2.2.2 r.2.2.2)

/-- MD5 padding: append `0x80`, zero bytes up to 56 mod 64, then the
64-bit little-endian bit length. -/
def md5Pad (msg : List Nat) : List Nat :=
  let len := msg.length
  let padZeros := (55 + 64 - len % 64) % 64
  let bitLen := 8 * len
  msg ++ [128] ++ List.replicate padZeros 0 ++
    (List.range 8).map (fun i => bitLen / 256 ^ i % 256)

/-- Split a byte list into 64-byte chunks; the fuel bounds the number of
chunks, which `md5Blocks` supplies generously. -/
def chunksAux : Nat → List Nat → List (List Nat)
  | 0, _ => []
  | fuel + 1, l => if l.isEmpty then [] else l.take 64 :: chunksAux fuel (l.drop 64)

/-- The 64-byte blocks of a padded message. -/
def md5Blocks (l : List Nat) : List (List Nat) :=
  chunksAux (l.length / 64 + 1) l

/-- The four bytes of a 32-bit word, little-endian. -/
def wordLEBytes (w : Nat) : List Nat :=
  [w % 256, w / 256 % 256, w / 65536 % 256, w / 16777216 % 256]

/-- The MD5 initial state. -/
def md5Init : Nat × Nat × Nat × Nat :=
  (0x67452301, 0xefcdab89, 0x98badcfe, 0x10325476)

/-- The 16-byte MD5 digest of a byte string. -/
def md5Bytes (msg : List Nat) : List Nat :=
  let s := (md5Blocks (md5Pad msg)).foldl md5Block md5Init
  wordLEBytes s.1 ++ wordLEBytes s.2.1 ++ wordLEBytes s.2.2.1 ++ wordLEBytes s.2.2.2

/-- A lowercase hexadecimal digit. -/
def hexDigit (n : Nat) : Char :=
  if n < 10 then Char.ofNat (48 + n) else Char.ofNat (87 + n)

/-- Lowercase hex rendering of a byte list, two digits per byte, as
`hexdigest()` produces. -/
def bytesToHex : List Nat → List Char
  | [] => []
  | b :: bs => hexDigit (b / 16) :: hexDigit (b % 16) :: bytesToHex bs

/-- The bytes of a string; the inputs hashed by the scraper are ASCII, on
which Python's `str.encode()` (UTF-8) coincides with the code points. -/
def strBytes (s : String) : List Nat :=
  s.data.map Char.toNat

/-- `AutomatedPinterestScraper._generate_pin_id` (automated_scraper.py
lines 91-94): the first 12 hex digits of `md5(f"{pin_url}_{title}")`. -/
def generate_pin_id (pin_url title : String) : String :=
  String.mk ((bytesToHex (md5Bytes (strBytes (pin_url ++ "_" ++ title)))).take 12)

/-! ## Automated scraper and its dedup tracker (automated_scraper.py) -/

/-- The pin dict built inside `AutomatedPinterestScraper.scrape_board`
(automated_scraper.py lines 109-128), with the randomly drawn pin number
and title number as parameters; only the identity-relevant fields are
kept.  The `pin_id` is generated by `_generate_pin_id`, not taken from the
source URL. -/
structure AutoPin where
  pin_id : String
  url : String
  title : String
  board_url : String
deriving DecidableEq, Repr

/-- The construction of one candidate pin in `scrape_board`
(automated_scraper.py lines 110-112): the source URL carries the pin
number in its `/pin/` segment, while the stored `pin_id` is the MD5-based
fabricated identifier. -/
def auto_pin_for (board_url : String) (pinNum titleNum : Nat) : AutoPin :=
  let pin_url := board_url ++ "/pin/" ++ toString pinNum
  let pin_title := "Fashion Item " ++ toString titleNum
  { pin_id := generate_pin_id pin_url pin_title, url := pin_url,
    title := pin_title, board_url := board_url }

/-- The dedup test and insertion of `scrape_board` (automated_scraper.py
lines 115-129): a candidate whose generated id is already tracked is
dropped; otherwise it is ingested and its id added to `scraped_pins`. -/
def scrape_board_step (scraped : List String) (p : AutoPin) :
    List String × Option AutoPin :=
  if p.pin_id ∈ scraped then (scraped, none)
  else (scraped ++ [p.pin_id], some p)

/-- The `scraped_pins_tracker.json` file contents written by
`_save_scraped_pins` (automated_scraper.py lines 77-89): the tracked ids
plus metadata.  The `last_updated` wall-clock field is omitted. -/
structure TrackerFile where
  scraped_pins : List String
  total_pins : Nat
deriving DecidableEq, Repr

/-- `AutomatedPinterestScraper._save_scraped_pins` (automated_scraper.py
lines 77-89): serialize the in-memory id set as a list under the
`scraped_pins` key. -/
def save_scraped_pins (pins : List String) : TrackerFile :=
  { scraped_pins := pins, total_pins := pins.length }

/-- `AutomatedPinterestScraper._load_scraped_pins` (automated_scraper.py
lines 64-75): read the `scraped_pins` list back into a set; a missing or
unreadable file yields the empty set. -/
def load_scraped_pins (f : Option TrackerFile) : List String :=
  match f with
  | some f => f.scraped_pins
  | none => []

/-! ## API job execution (api/scraper_service.py, api/models.py) -/

/-- `JobStatus` (api/models.py lines 11-16). -/
inductive JobStatus where
  | pending
  | running
  | completed
  | failed
  | cancelled
deriving DecidableEq, Repr

/-- The terminal statuses of the `pending → running → {completed, failed,
cancelled}` state machine. -/
def JobStatus.isTerminal : JobStatus → Bool
  | .completed => true
  | .failed => true
  | .cancelled => true
  | _ => false

/-- `ScraperService.execute_scraping_job` (api/scraper_service.py lines
72-157), abstracted to the sequence of `status` values its `update_job`
patches carry (patches that only update progress counters carry no
status).  `body` is the outcome of everything between the RUNNING update
and the COMPLETED update (scraper construction and `scrape_boards`);
`storeOk p` says whether `create_pin` succeeded for pin `p` (its exception
is caught at lines 127-129 and only skips that pin's progress update);
`cleanupOk` says whether the steps after the COMPLETED update (the config
cleanup at lines 143-145 and the final log) ran without raising.  Any
exception escaping the `try` body lands in the handler at lines 149-157,
which patches the status to FAILED. -/
def execute_scraping_job (body : Except String (List String))
    (storeOk : String → Bool) (cleanupOk : Bool) : List (Option JobStatus) :=
  match body with
  | .error _ => [some .running, some .failed]
  | .ok pins =>
    let progress := (pins.filter storeOk).map (fun _ => (none : Option JobStatus))
    let done := [some .running] ++ progress ++ [some .completed]
    if cleanupOk then done else done ++ [some .failed]

/-- The statuses actually written, in order. -/
def statusTrace (updates : List (Option JobStatus)) : List JobStatus :=
  updates.filterMap id

/-- `self.scraped_pins.add(pin_id)` (automated_scraper.py line 129):
Python set insertion, on the membership-list representation of the set. -/
def scraped_pins_add (s : List String) (id : String) : List String :=
  if id ∈ s then s else s ++ [id]

/-! ## Helper definitions and lemmas about the pins table -/

/-- The `pin_id` column of the pins table, in row order. -/
def pinIds (db : PinsTable) : List String :=
  db.map (fun r => r.pin_id)

lemma any_pin_id_eq_true_iff (db : PinsTable) (x : String) :
    (db.any (fun r => r.pin_id = x)) = true ↔ x ∈ pinIds db := by
  simp [pinIds, List.any_eq_true, List.mem_map]

lemma add_pin_of_mem {db : PinsTable} {p : Pin} (h : p.pin_id ∈ pinIds db) :
    add_pin db p = db := by
  unfold add_pin
  rw [if_pos ((any_pin_id_eq_true_iff db p.pin_id).2 h)]

lemma add_pin_of_not_mem {db : PinsTable} {p : Pin} (h : p.pin_id ∉ pinIds db) :
    add_pin db p = db ++ [p] := by
  unfold add_pin
  rw [if_neg (fun hc => h ((any_pin_id_eq_true_iff db p.pin_id).1 hc))]

lemma mem_pinIds_add_pin {x : String} (db : PinsTable) (p : Pin) :
    x ∈ pinIds (add_pin db p) ↔ x ∈ pinIds db ∨ x = p.pin_id := by
  by_cases h : p.pin_id ∈ pinIds db
  · rw [add_pin_of_mem h]
    constructor
    · exact Or.inl
    · rintro (hx | rfl)
      · exact hx
      · exact h
  · rw [add_pin_of_not_mem h]
    simp [pinIds]

lemma nodup_pinIds_add_pin {db : PinsTable} (p : Pin)
    (h : (pinIds db).Nodup) : (pinIds (add_pin db p)).Nodup := by
  by_cases hm : p.pin_id ∈ pinIds db
  · rw [add_pin_of_mem hm]; exact h
  · rw [add_pin_of_not_mem hm]
    have hids : pinIds (db ++ [p]) = pinIds db ++ [p.pin_id] := by simp [pinIds]
    rw [hids]
    refine List.Nodup.append h (List.nodup_singleton _) ?_
    intro x hx hx'
    rw [List.mem_singleton] at hx'
    exact hm (hx' ▸ hx)

lemma save_new_pins_cons (db : PinsTable) (p : Pin) (ps : List Pin) :
    save_new_pins db (p :: ps) = save_new_pins (save_pin db p) ps := rfl

lemma subset_pinIds_save_new_pins (db : PinsTable) (ps : List Pin) :
    pinIds db ⊆ pinIds (save_new_pins db ps) := by
  induction ps generalizing db with
  | nil => exact fun x hx => hx
  | cons p ps ih =>
    intro x hx
    rw [save_new_pins_cons]
    exact ih (save_pin db p) ((mem_pinIds_add_pin db p).2 (Or.inl hx))

lemma mem_pinIds_save_new_pins_of_mem {p : Pin} (db : PinsTable) {ps : List Pin}
    (h : p ∈ ps) : p.pin_id ∈ pinIds (save_new_pins db ps) := by
  induction ps generalizing db with
  | nil => cases h
  | cons q ps ih =>
    rw [save_new_pins_cons]
    rcases List.mem_cons.1 h with h | h
    · subst h
      exact subset_pinIds_save_new_pins (save_pin db p) ps
        ((mem_pinIds_add_pin db p).2 (Or.inr rfl))
    · exact ih (save_pin db q) h

lemma nodup_pinIds_save_new_pins (db : PinsTable) (ps : List Pin)
    (h : (pinIds db).Nodup) : (pinIds (save_new_pins db ps)).Nodup := by
  induction ps generalizing db with
  | nil => exact h
  | cons p ps ih =>
    rw [save_new_pins_cons]
    exact ih (save_pin db p) (nodup_pinIds_add_pin p h)

lemma save_new_pins_of_mem (db : PinsTable) (ps : List Pin)
    (h : ∀ p ∈ ps, p.pin_id ∈ pinIds db) : save_new_pins db ps = db := by
  induction ps generalizing db with
  | nil => rfl
  | cons p ps ih =>
    rw [save_new_pins_cons]
    have hp : save_pin db p = db := add_pin_of_mem (h p (List.mem_cons_self p ps))
    rw [hp]
    exact ih db (fun q hq => h q (List.mem_cons_of_mem p hq))

lemma existing_pin_ids_subset_pinIds (db : PinsTable) :
    existing_pin_ids db ⊆ pinIds db := by
  intro x hx
  exact List.mem_of_mem_filter hx

lemma length_filter_mem_eq {l s : List String} (hl : l.Nodup) (hs : s.Nodup)
    (hsub : ∀ x ∈ s, x ∈ l) :
    (l.filter (fun x => x ∈ s)).length = s.length := by
  have h1 : List.Subperm s (l.filter (fun x => x ∈ s)) := by
    refine hs.subperm ?_
    intro x hx
    simp only [List.mem_filter, decide_eq_true_eq]
    exact ⟨hsub x hx, hx⟩
  have h2 : List.Subperm (l.filter (fun x => x ∈ s)) s := by
    refine (hl.filter _).subperm ?_
    intro x hx
    simp only [List.mem_filter, decide_eq_true_eq] at hx
    exact hx.2
  exact Nat.le_antisymm h2.length_le h1.length_le

/-! ## C1 -/

/-- C1. Idempotent ingestion: when a source yields the same list of `N`
items (with `N` distinct pin ids) on two successive runs of the cron
pipeline, after the second run the pins table contains exactly `N` rows
for those ids, not `2N`: `scrape_new_pins` filters every id already
present against the existing-id set, and re-inserting an existing
`pin_id` is a no-op because of the `INSERT OR IGNORE` on the `UNIQUE`
`pin_id` column. -/
theorem C1_idempotent_ingestion (db : PinsTable) (items : List Pin)
    (hitems : (items.map (fun p => p.pin_id)).Nodup)
    (hdb : (pinIds db).Nodup) :
    ((run_daily_scrape (run_daily_scrape db [items]).db [items]).db.filter
        (fun r => r.pin_id ∈ items.map (fun p => p.pin_id))).length
      = items.length := by
  have hdb1eq : (run_daily_scrape db [items]).db
      = save_new_pins db (scrape_new_pins items (existing_pin_ids db)) := rfl
  set db1 := save_new_pins db (scrape_new_pins items (existing_pin_ids db)) with hdb1
  have hA : ∀ p ∈ items, p.pin_id ∈ pinIds db1 := by
    intro p hp
    by_cases hin : p.pin_id ∈ pinIds db
    · exact subset_pinIds_save_new_pins db _ hin
    · have hnotex : p.pin_id ∉ existing_pin_ids db :=
        fun hc => hin (existing_pin_ids_subset_pinIds db hc)
      have hmemfil : p ∈ scrape_new_pins items (existing_pin_ids db) := by
        simp only [scrape_new_pins, List.mem_filter, decide_eq_true_eq]
        exact ⟨hp, by simpa using hnotex⟩
      exact mem_pinIds_save_new_pins_of_mem db hmemfil
  have hnd1 : (pinIds db1).Nodup := nodup_pinIds_save_new_pins db _ hdb
  have hB : (run_daily_scrape db1 [items]).db = db1 := by
    have : (run_daily_scrape db1 [items]).db
        = save_new_pins db1 (scrape_new_pins items (existing_pin_ids db1)) := rfl
    rw [this]
    refine save_new_pins_of_mem db1 _ ?_
    intro p hp
    simp only [scrape_new_pins] at hp
    exact hA p (List.mem_of_mem_filter hp)
  rw [hdb1eq, hB]
  have hsubset : ∀ x ∈ items.map (fun p => p.pin_id), x ∈ pinIds db1 := by
    intro x hx
    rcases List.mem_map.1 hx with ⟨p, hp, rfl⟩
    exact hA p hp
  have hcount : (db1.filter (fun r => r.pin_id ∈ items.map (fun p => p.pin_id))).length
      = (items.map (fun p => p.pin_id)).length := by
    rw [← List.countP_eq_length_filter]
    have hmap : db1.countP (fun r => r.pin_id ∈ items.map (fun p => p.pin_id))
        = (pinIds db1).countP (fun x => x ∈ items.map (fun p => p.pin_id)) := by
      rw [pinIds, List.countP_map]
      rfl
    rw [hmap, List.countP_eq_length_filter]
    exact length_filter_mem_eq hnd1 hitems hsubset
  rw [hcount, List.length_map]

/-- Concrete instantiation of `C1_idempotent_ingestion`: two items with
distinct ids against an initially empty store. -/
theorem C1_idempotent_ingestion_witness :
    (([{ pin_id := "a" }, { pin_id := "b" }] : List Pin).map
        (fun p => p.pin_id)).Nodup
    ∧ (pinIds []).Nodup
    ∧ ((run_daily_scrape
          (run_daily_scrape [] [[{ pin_id := "a" }, { pin_id := "b" }]]).db
          [[{ pin_id := "a" }, { pin_id := "b" }]]).db.filter
        (fun r => r.pin_id ∈ ([{ pin_id := "a" }, { pin_id := "b" }] : List Pin).map
          (fun p => p.pin_id))).length
      = ([{ pin_id := "a" }, { pin_id := "b" }] : List Pin).length :=
  ⟨by decide, by decide,
    C1_idempotent_ingestion [] [{ pin_id := "a" }, { pin_id := "b" }]
      (by decide) (by decide)⟩

/-! ## C10 -/

lemma pinIds_save_new_pins_cases (db : PinsTable) (ps : List Pin) :
    ∀ x ∈ pinIds (save_new_pins db ps),
      x ∈ pinIds db ∨ x ∈ ps.map (fun p => p.pin_id) := by
  induction ps generalizing db with
  | nil => exact fun x hx => Or.inl hx
  | cons p ps ih =>
    intro x hx
    rw [save_new_pins_cons] at hx
    rcases ih (save_pin db p) x hx with h | h
    · rcases (mem_pinIds_add_pin db p).1 h with h' | h'
      · exact Or.inl h'
      · exact Or.inr (by simp [h'])
    · exact Or.inr (by simp [List.mem_map] at h ⊢; tauto)

lemma nodup_run_daily_scrape_aux (scrapes : List (List Pin)) :
    ∀ st : CronState, (pinIds st.db).Nodup →
      (pinIds (scrapes.foldl process_board st).db).Nodup := by
  induction scrapes with
  | nil => exact fun st h => h
  | cons s rest ih =>
    intro st h
    exact ih (process_board st s) (nodup_pinIds_save_new_pins st.db _ h)

/-- C10. Within one `run_daily_scrape` over an ordered list of boards, the
in-memory existing-id set only grows; every (truthy) pin id just saved is
added to the set before the next board, so a later board's `new_pins`
excludes every id already in the set, and — starting from a store whose
ids are unique — each pin id is persisted at most once in the whole run,
deduplicating globally across boards. -/
theorem C10_run_dedup_monotone (db : PinsTable) (scrapes : List (List Pin))
    (hdb : (pinIds db).Nodup) :
    (pinIds (run_daily_scrape db scrapes).db).Nodup
    ∧ (∀ st : CronState, ∀ s : List Pin,
        st.existing ⊆ (process_board st s).existing)
    ∧ (∀ st : CronState, ∀ s : List Pin, ∀ p ∈ scrape_new_pins s st.existing,
        p.pin_id ∉ st.existing)
    ∧ (∀ st : CronState, ∀ s : List Pin,
        (∀ x ∈ pinIds st.db, x ≠ "" → x ∈ st.existing) →
          ∀ x ∈ pinIds (process_board st s).db, x ≠ "" →
            x ∈ (process_board st s).existing) := by
  refine ⟨nodup_run_daily_scrape_aux scrapes _ hdb, ?_, ?_, ?_⟩
  · intro st s x hx
    exact List.mem_append_left _ hx
  · intro st s p hp
    simp only [scrape_new_pins, List.mem_filter, decide_eq_true_eq] at hp
    simpa using hp.2
  · intro st s hinv x hx hne
    have hx' := pinIds_save_new_pins_cases st.db (scrape_new_pins s st.existing) x hx
    rcases hx' with h | h
    · exact List.mem_append_left _ (hinv x h hne)
    · refine List.mem_append_right _ ?_
      simp only [List.mem_filter, decide_eq_true_eq]
      exact ⟨h, by simpa using hne⟩

/-- Concrete stores and board scrapes for `C10_run_dedup_monotone`. -/
def c10db : PinsTable := [{ pin_id := "a" }]

/-- Two overlapping board scrapes for `C10_run_dedup_monotone`. -/
def c10scrapes : List (List Pin) :=
  [[{ pin_id := "a" }, { pin_id := "b" }], [{ pin_id := "b" }, { pin_id := "c" }]]

/-- Concrete instantiation of `C10_run_dedup_monotone`: a store already
holding "a" and two boards that share the pin "b". -/
theorem C10_run_dedup_monotone_witness :
    (pinIds c10db).Nodup
    ∧ ((pinIds (run_daily_scrape c10db c10scrapes).db).Nodup
      ∧ (∀ st : CronState, ∀ s : List Pin,
          st.existing ⊆ (process_board st s).existing)
      ∧ (∀ st : CronState, ∀ s : List Pin, ∀ p ∈ scrape_new_pins s st.existing,
          p.pin_id ∉ st.existing)
      ∧ (∀ st : CronState, ∀ s : List Pin,
          (∀ x ∈ pinIds st.db, x ≠ "" → x ∈ st.existing) →
            ∀ x ∈ pinIds (process_board st s).db, x ≠ "" →
              x ∈ (process_board st s).existing)) :=
  ⟨by decide, C10_run_dedup_monotone c10db c10scrapes (by decide)⟩

/-! ## C8 -/

lemma mem_scraped_pins_add_of_mem {x : String} (s : List String) (y : String)
    (h : x ∈ s) : x ∈ scraped_pins_add s y := by
  unfold scraped_pins_add
  split
  · exact h
  · exact List.mem_append_left _ h

lemma mem_scraped_pins_add_self (s : List String) (id : String) :
    id ∈ scraped_pins_add s id := by
  unfold scraped_pins_add
  split
  · assumption
  · simp

lemma mem_foldl_scraped_pins_add_of_mem {x : String} (l : List String) :
    ∀ s : List String, x ∈ s → x ∈ l.foldl scraped_pins_add s := by
  induction l with
  | nil => exact fun s h => h
  | cons y l ih => exact fun s h => ih _ (mem_scraped_pins_add_of_mem s y h)

lemma mem_foldl_scraped_pins_add {id : String} (l : List String)
    (h : id ∈ l) : ∀ s : List String, id ∈ l.foldl scraped_pins_add s := by
  induction l with
  | nil => cases h
  | cons y l ih =>
    intro s
    rcases List.mem_cons.1 h with h' | h'
    · subst h'
      exact mem_foldl_scraped_pins_add_of_mem l _ (mem_scraped_pins_add_self s id)
    · exact ih h' _

/-- C8. Dedup persistence round trip: starting from any loaded tracker
state and any sequence of ids added via set insertion, persisting through
`_save_scraped_pins` and then loading — as a fresh process would through
`_load_scraped_pins` — yields every identifier added before the persist,
and in fact exactly the persisted set. -/
theorem C8_dedup_persist_roundtrip (base : Option TrackerFile) (added : List String) :
    (∀ id ∈ added,
      id ∈ load_scraped_pins (some (save_scraped_pins
        (added.foldl scraped_pins_add (load_scraped_pins base)))))
    ∧ (∀ id, id ∈ load_scraped_pins (some (save_scraped_pins
        (added.foldl scraped_pins_add (load_scraped_pins base))))
        ↔ id ∈ added.foldl scraped_pins_add (load_scraped_pins base)) := by
  constructor
  · intro id hid
    exact mem_foldl_scraped_pins_add added hid _
  · intro id
    exact Iff.rfl

/-- Concrete instantiation of `C8_dedup_persist_roundtrip`: no prior
tracker file, ids "x" and "y" added, "x" recovered after the round
trip. -/
theorem C8_dedup_persist_roundtrip_witness :
    "x" ∈ ["x", "y"]
    ∧ "x" ∈ load_scraped_pins (some (save_scraped_pins
        ((["x", "y"]).foldl scraped_pins_add (load_scraped_pins none)))) :=
  ⟨by decide, (C8_dedup_persist_roundtrip none ["x", "y"]).1 "x" (by decide)⟩

/-! ## C7 -/

lemma statusTrace_progress_updates (l : List String) :
    statusTrace (l.map (fun _ => (none : Option JobStatus))) = [] := by
  simp [statusTrace]

/-- C7 counterexample: when `scrape_boards` succeeds but a step after the
COMPLETED update raises (here the config cleanup), the exception handler
patches the status to FAILED, so the written status sequence is
`running, completed, failed` — a transition out of the terminal
`completed` state, contradicting the claimed monotonicity. -/
theorem C7_counterexample :
    statusTrace (execute_scraping_job (Except.ok ["p1"]) (fun _ => true) false)
      = [JobStatus.running, JobStatus.completed, JobStatus.failed]
    ∧ JobStatus.isTerminal JobStatus.completed = true := by
  decide

/-- C7 (amended). The status writes of `execute_scraping_job` are
`running` then `failed` when the body raises before completion, `running`
then `completed` when it succeeds and the post-completion steps do not
raise, and `running`, `completed`, `failed` when a step after the terminal
COMPLETED update raises — only in that last case is a terminal status
overwritten. -/
theorem C7_amended_status_trace (body : Except String (List String))
    (storeOk : String → Bool) (cleanupOk : Bool) :
    statusTrace (execute_scraping_job body storeOk cleanupOk)
      = match body with
        | .error _ => [JobStatus.running, JobStatus.failed]
        | .ok _ =>
          if cleanupOk then [JobStatus.running, JobStatus.completed]
          else [JobStatus.running, JobStatus.completed, JobStatus.failed] := by
  cases body with
  | error m => rfl
  | ok pins =>
    have hp := statusTrace_progress_updates (pins.filter storeOk)
    cases cleanupOk with
    | false =>
      simp only [execute_scraping_job, if_neg (by simp : ¬False = true)]
      simp [statusTrace, List.filterMap_append] at hp ⊢
    | true =>
      simp only [execute_scraping_job, if_pos rfl]
      simp [statusTrace, List.filterMap_append] at hp ⊢

/-! ## C5 -/

lemma resilience_loop_board_url (attempts : Nat → ScrapeAttempt)
    (fetch : Pin → Option String) (thumb : String → Option String)
    (ex : List String) (url : String) :
    ∀ fuel rc db,
      (resilience_loop attempts fetch thumb ex url fuel rc db).1.board_url = url := by
  intro fuel
  induction fuel with
  | zero => intro rc db; rfl
  | succ f ih =>
    intro rc db
    cases hatt : attempts rc with
    | ok pins => simp [resilience_loop, hatt]
    | errorResult m => simp only [resilience_loop, hatt]; exact ih _ _
    | exn m => simp only [resilience_loop, hatt]; exact ih _ _

lemma resilience_loop_all_fail (attempts : Nat → ScrapeAttempt)
    (fetch : Pin → Option String) (thumb : String → Option String)
    (ex : List String) (url : String)
    (hfail : ∀ k, k < max_retries → attemptFails (attempts k) = true) :
    ∀ fuel rc db, rc + fuel = max_retries →
      (resilience_loop attempts fetch thumb ex url fuel rc db).1 = exhaustedOutcome url
      ∧ (resilience_loop attempts fetch thumb ex url fuel rc db).2.1 = db := by
  intro fuel
  induction fuel with
  | zero => intro rc db _; exact ⟨rfl, rfl⟩
  | succ f ih =>
    intro rc db hsum
    have hrc : rc < max_retries := by omega
    have hf := hfail rc hrc
    cases hatt : attempts rc with
    | ok pins => rw [hatt] at hf; simp [attemptFails] at hf
    | errorResult m =>
      simp only [resilience_loop, hatt]
      exact ih (rc + 1) db (by omega)
    | exn m =>
      simp only [resilience_loop, hatt]
      exact ih (rc + 1) db (by omega)

lemma pipeline_fold_urls (attempts : String → Nat → ScrapeAttempt)
    (fetch : Pin → Option String) (thumb : String → Option String) :
    ∀ (boards : List String) (acc : List BoardOutcome × PinsTable),
      ((boards.foldl (pipeline_step attempts fetch thumb) acc).1).map
          (fun r => r.board_url)
        = acc.1.map (fun r => r.board_url) ++ boards := by
  intro boards
  induction boards with
  | nil => intro acc; simp
  | cons url boards ih =>
    intro acc
    rw [List.foldl_cons, ih]
    simp [pipeline_step,
      resilience_loop_board_url (attempts url) fetch thumb (existing_pin_ids acc.2)
        url max_retries 0 acc.2, scrape_board_with_resilience]

lemma pipeline_fold_mem (attempts : String → Nat → ScrapeAttempt)
    (fetch : Pin → Option String) (thumb : String → Option String) :
    ∀ (boards : List String) (acc : List BoardOutcome × PinsTable)
      (r : BoardOutcome),
      r ∈ (boards.foldl (pipeline_step attempts fetch thumb) acc).1 →
        r ∈ acc.1 ∨ ∃ b ∈ boards, ∃ d : PinsTable,
          r = (scrape_board_with_resilience (attempts b) fetch thumb d b).1 := by
  intro boards
  induction boards with
  | nil => intro acc r hr; exact Or.inl hr
  | cons url boards ih =>
    intro acc r hr
    rw [List.foldl_cons] at hr
    rcases ih _ r hr with h | h
    · simp only [pipeline_step, List.mem_append, List.mem_singleton] at h
      rcases h with h | h
      · exact Or.inl h
      · exact Or.inr ⟨url, List.mem_cons_self url boards, acc.2, h⟩
    · rcases h with ⟨b, hb, d, hd⟩
      exact Or.inr ⟨b, List.mem_cons_of_mem url hb, d, hd⟩

/-- C5.  The degraded-completion machinery behaves exactly as the claim
describes — granting setup and a non-empty board list, every board
receives exactly one per-source outcome, in order, and a board all of
whose `max_retries` (3) attempts fail is recorded with `success = false`
and `retry_count = max_retries`, with every remaining board still
processed — but the claimed COMPLETED terminal status is unreachable:
the run returns `False` on every execution, because
`generate_final_report` always raises (`json.dump` of the `datetime`
`start_time`) and the handler returns `False`, and in-repo setup itself
always fails (`initialize_scraper_ok = false`, the constructor-kwargs
`TypeError`).  The `return True` at production_pipeline.py line 232 —
the code's own statement of the intended COMPLETED outcome — can never
execute. -/
theorem C5_degraded_machinery_but_run_never_completes (boards : List String)
    (attempts : String → Nat → ScrapeAttempt) (fetch : Pin → Option String)
    (thumb : String → Option String) (db : PinsTable) (hne : boards ≠ []) :
    (run_production_pipeline true boards attempts fetch thumb db).1 = false
    ∧ (run_production_pipeline initialize_scraper_ok boards attempts fetch thumb db).1
        = false
    ∧ ((run_production_pipeline true boards attempts fetch thumb db).2.1).map
        (fun r => r.board_url) = boards
    ∧ ∀ b ∈ boards, (∀ k, k < max_retries → attemptFails (attempts b k) = true) →
        ∀ r ∈ (run_production_pipeline true boards attempts fetch thumb db).2.1,
          r.board_url = b → r.success = false ∧ r.retry_count = max_retries := by
  have hbe : boards.isEmpty = false := by
    cases boards with
    | nil => exact absurd rfl hne
    | cons x xs => rfl
  have hrun : run_production_pipeline true boards attempts fetch thumb db
      = (false, (boards.foldl (pipeline_step attempts fetch thumb) ([], db)).1,
          (boards.foldl (pipeline_step attempts fetch thumb) ([], db)).2) := by
    simp [run_production_pipeline, hbe, generate_final_report_ok]
  refine ⟨by rw [hrun], by simp [run_production_pipeline, initialize_scraper_ok], ?_, ?_⟩
  · rw [hrun]
    simpa using pipeline_fold_urls attempts fetch thumb boards ([], db)
  · intro b hb hfail r hr hurl
    rw [hrun] at hr
    rcases pipeline_fold_mem attempts fetch thumb boards ([], db) r hr with h | h
    · simp at h
    · rcases h with ⟨b', hb', d, hd⟩
      have hbu : r.board_url = b' := by
        rw [hd]
        exact resilience_loop_board_url (attempts b') fetch thumb
          (existing_pin_ids d) b' max_retries 0 d
      have hbb : b' = b := by rw [← hbu, hurl]
      subst hbb
      have hex := (resilience_loop_all_fail (attempts b') fetch thumb
        (existing_pin_ids d) b' hfail max_retries 0 d rfl).1
      rw [hd]
      unfold scrape_board_with_resilience
      rw [hex]
      exact ⟨rfl, rfl⟩

/-- A board list with one healthy and one permanently failing board. -/
def c5boards : List String := ["good", "bad"]

/-- Attempt oracle for `c5boards`: the board "bad" always returns an
error result, every other board succeeds with one pin. -/
def c5attempts : String → Nat → ScrapeAttempt := fun url _ =>
  if url = "bad" then ScrapeAttempt.errorResult "err"
  else ScrapeAttempt.ok [{ pin_id := "p1" }]

/-- A fetch oracle that always validates. -/
def fetchAll : Pin → Option String := fun _ => some "img.jpg"

/-- A fetch oracle that always fails validation. -/
def fetchNone : Pin → Option String := fun _ => none

/-- A thumbnail oracle that never produces a thumbnail. -/
def thumbNone : String → Option String := fun _ => none

/-- Concrete instantiation of
`C5_degraded_machinery_but_run_never_completes` on `c5boards`. -/
theorem C5_degraded_machinery_but_run_never_completes_witness :
    c5boards ≠ []
    ∧ ((run_production_pipeline true c5boards c5attempts fetchAll thumbNone []).1 = false
      ∧ (run_production_pipeline initialize_scraper_ok c5boards c5attempts
          fetchAll thumbNone []).1 = false
      ∧ ((run_production_pipeline true c5boards c5attempts fetchAll thumbNone []).2.1).map
          (fun r => r.board_url) = c5boards
      ∧ ∀ b ∈ c5boards,
          (∀ k, k < max_retries → attemptFails (c5attempts b k) = true) →
          ∀ r ∈ (run_production_pipeline true c5boards c5attempts fetchAll thumbNone []).2.1,
            r.board_url = b → r.success = false ∧ r.retry_count = max_retries) :=
  ⟨by decide, C5_degraded_machinery_but_run_never_completes c5boards c5attempts
    fetchAll thumbNone [] (by decide)⟩

/-! ## C4 -/

lemma download_fold_failed (fetch : Pin → Option String)
    (thumb : String → Option String) :
    ∀ (ps : List Pin) (acc : DownloadResults),
      (ps.foldl (download_step fetch thumb) acc).failed
        = acc.failed + ps.countP (fun p => (fetch p).isNone) := by
  intro ps
  induction ps with
  | nil => intro acc; simp
  | cons p ps ih =>
    intro acc
    rw [List.foldl_cons, ih, List.countP_cons]
    cases hf : fetch p with
    | some path =>
      cases ht : thumb path with
      | some tpath => simp [download_step, hf, ht]
      | none => simp [download_step, hf, ht]
    | none => simp [download_step, hf]; omega

lemma download_pin_images_failed (fetch : Pin → Option String)
    (thumb : String → Option String) (ps : List Pin) :
    (download_pin_images fetch thumb ps).failed
      = ps.countP (fun p => (fetch p).isNone) := by
  simpa [download_pin_images] using download_fold_failed fetch thumb ps {}

lemma resilience_loop_ok_step (attempts : Nat → ScrapeAttempt)
    (fetch : Pin → Option String) (thumb : String → Option String)
    (ex : List String) (url : String) (fuel rc : Nat) (db : PinsTable)
    (pins : List Pin) (h : attempts rc = ScrapeAttempt.ok pins) :
    resilience_loop attempts fetch thumb ex url (fuel + 1) rc db
      = ({ board_url := url, success := true, pins_found := pins.length,
           new_pins := (scrape_new_pins pins ex).length,
           pins_saved := (scrape_new_pins pins ex).length,
           downloaded := (download_pin_images fetch thumb (scrape_new_pins pins ex)).downloaded,
           failedDownloads := (download_pin_images fetch thumb (scrape_new_pins pins ex)).failed,
           retry_count := rc },
         save_new_pins db (scrape_new_pins pins ex), []) := by
  simp [resilience_loop, h]

/-- C4 counterexample: one new pin whose media fetch fails validation is
nonetheless persisted — after the run the pins table holds its id — while
the failure is only counted in the download statistics (`failed = 1`).
This contradicts the claim that such an item is dropped entirely and
never persisted. -/
theorem C4_counterexample :
    ((scrape_board_with_resilience (fun _ => ScrapeAttempt.ok [{ pin_id := "11111" }])
        fetchNone thumbNone [] "b").1.failedDownloads = 1)
    ∧ ((scrape_board_with_resilience (fun _ => ScrapeAttempt.ok [{ pin_id := "11111" }])
        fetchNone thumbNone [] "b").2.1.map (fun r => r.pin_id) = ["11111"]) := by
  decide

/-- C4 (amended). In `scrape_board_with_resilience` an item whose media
fetch fails validation is NOT dropped: all new pins are saved to the
database before any download is attempted, so every new pin's id is
persisted regardless of its fetch outcome, and the fetch failure is only
recorded in the `failed` counter of the download results. -/
theorem C4_amended_failed_fetch_persisted (attempts : Nat → ScrapeAttempt)
    (fetch : Pin → Option String) (thumb : String → Option String)
    (db : PinsTable) (url : String) (pins : List Pin)
    (h : attempts 0 = ScrapeAttempt.ok pins) :
    (scrape_board_with_resilience attempts fetch thumb db url).1.failedDownloads
      = (scrape_new_pins pins (existing_pin_ids db)).countP (fun p => (fetch p).isNone)
    ∧ ∀ p ∈ scrape_new_pins pins (existing_pin_ids db),
        p.pin_id ∈ pinIds (scrape_board_with_resilience attempts fetch thumb db url).2.1 := by
  have hun : scrape_board_with_resilience attempts fetch thumb db url
      = resilience_loop attempts fetch thumb (existing_pin_ids db) url (2 + 1) 0 db := rfl
  rw [hun, resilience_loop_ok_step attempts fetch thumb (existing_pin_ids db) url 2 0 db pins h]
  constructor
  · exact download_pin_images_failed fetch thumb _
  · intro p hp
    exact mem_pinIds_save_new_pins_of_mem db hp

/-- Concrete instantiation of `C4_amended_failed_fetch_persisted`: a
single new pin whose fetch is rejected. -/
theorem C4_amended_failed_fetch_persisted_witness :
    ((fun _ => ScrapeAttempt.ok [{ pin_id := "22222" }]) : Nat → ScrapeAttempt) 0
        = ScrapeAttempt.ok [{ pin_id := "22222" }]
    ∧ ((scrape_board_with_resilience (fun _ => ScrapeAttempt.ok [{ pin_id := "22222" }])
          fetchNone thumbNone [] "b").1.failedDownloads
        = (scrape_new_pins [{ pin_id := "22222" }] (existing_pin_ids [])).countP
            (fun p => (fetchNone p).isNone)
      ∧ ∀ p ∈ scrape_new_pins [{ pin_id := "22222" }] (existing_pin_ids []),
          p.pin_id ∈ pinIds (scrape_board_with_resilience
            (fun _ => ScrapeAttempt.ok [{ pin_id := "22222" }])
            fetchNone thumbNone [] "b").2.1) :=
  ⟨rfl, C4_amended_failed_fetch_persisted (fun _ => ScrapeAttempt.ok [{ pin_id := "22222" }])
    fetchNone thumbNone [] "b" [{ pin_id := "22222" }] rfl⟩

/-! ## C6 -/

/-- The backoff the retry loop actually sleeps after failed attempt
number `k` (i.e. before attempt `k + 1`): `30 * k` seconds when the
attempt returned an error result, `60 * k` seconds when it raised — a
base that is linear in the retry count, not multiplied by `2^k`. -/
def backoffDelay : ScrapeAttempt → Nat → Nat
  | ScrapeAttempt.errorResult _, k => 30 * k
  | ScrapeAttempt.exn _, k => 60 * k
  | ScrapeAttempt.ok _, _ => 0

/-- Attempt oracle mixing the two failure modes: an error result on
attempts 1 and 3, a raised exception on attempt 2. -/
def c6attempts : Nat → ScrapeAttempt := fun rc =>
  if rc = 1 then ScrapeAttempt.exn "boom" else ScrapeAttempt.errorResult "err"

/-- C6 counterexample: with an error result on attempt 1 and an exception
on attempt 2, the waits slept between attempts are 30 s then 120 s.  The
second wait is four times the first, so the waits do not double, and no
fixed base delay `b` satisfies both `30 = b * 2^1` and `120 = b * 2^2` —
the claimed exponential law `base * 2^k` is false of the code. -/
theorem C6_counterexample :
    (scrape_board_with_resilience c6attempts fetchNone thumbNone [] "b").2.2 = [30, 120]
    ∧ ((scrape_board_with_resilience c6attempts fetchNone thumbNone [] "b").2.2).getD 1 0
        ≠ 2 * ((scrape_board_with_resilience c6attempts fetchNone thumbNone [] "b").2.2).getD 0 0 := by
  decide

lemma resilience_loop_delays (attempts : Nat → ScrapeAttempt)
    (fetch : Pin → Option String) (thumb : String → Option String)
    (ex : List String) (url : String) :
    ∀ fuel rc db, rc + fuel = max_retries →
      ∀ i, i < ((resilience_loop attempts fetch thumb ex url fuel rc db).2.2).length →
        ((resilience_loop attempts fetch thumb ex url fuel rc db).2.2).getD i 0
          = backoffDelay (attempts (rc + i)) (rc + i + 1) := by
  intro fuel
  induction fuel with
  | zero =>
    intro rc db _ i hi
    simp [resilience_loop] at hi
  | succ f ih =>
    intro rc db hsum i hi
    cases hatt : attempts rc with
    | ok pins =>
      rw [resilience_loop_ok_step attempts fetch thumb ex url f rc db pins hatt] at hi
      simp at hi
    | errorResult m =>
      simp only [resilience_loop, hatt] at hi ⊢
      by_cases hlt : rc + 1 < max_retries
      · simp only [if_pos hlt] at hi ⊢
        cases i with
        | zero => simp [backoffDelay, hatt]
        | succ j =>
          have harith : rc + (j + 1) = rc + 1 + j := by omega
          have hj := ih (rc + 1) db (by omega) j (by simpa using hi)
          simp only [List.cons_append, List.nil_append, List.getD_cons_succ]
          rw [harith]
          exact hj
      · have hf : f = 0 := by unfold max_retries at hsum hlt; omega
        subst hf
        simp [resilience_loop, if_neg hlt] at hi
    | exn m =>
      simp only [resilience_loop, hatt] at hi ⊢
      by_cases hlt : rc + 1 < max_retries
      · simp only [if_pos hlt] at hi ⊢
        cases i with
        | zero => simp [backoffDelay, hatt]
        | succ j =>
          have harith : rc + (j + 1) = rc + 1 + j := by omega
          have hj := ih (rc + 1) db (by omega) j (by simpa using hi)
          simp only [List.cons_append, List.nil_append, List.getD_cons_succ]
          rw [harith]
          exact hj
      · have hf : f = 0 := by unfold max_retries at hsum hlt; omega
        subst hf
        simp [resilience_loop, if_neg hlt] at hi

/-- C6 (amended). Per-source retry backoff is linear, not exponential:
the `i`-th wait slept by `scrape_board_with_resilience` (after failed
attempt `i + 1`) equals `30 * (i + 1)` seconds when that attempt returned
an error result and `60 * (i + 1)` seconds when it raised an exception. -/
theorem C6_amended_linear_backoff (attempts : Nat → ScrapeAttempt)
    (fetch : Pin → Option String) (thumb : String → Option String)
    (db : PinsTable) (url : String) :
    ∀ i, i < ((scrape_board_with_resilience attempts fetch thumb db url).2.2).length →
      ((scrape_board_with_resilience attempts fetch thumb db url).2.2).getD i 0
        = backoffDelay (attempts i) (i + 1) := by
  intro i hi
  have h := resilience_loop_delays attempts fetch thumb (existing_pin_ids db) url
    max_retries 0 db rfl i (by simpa [scrape_board_with_resilience] using hi)
  simpa [scrape_board_with_resilience] using h

/-- Concrete instantiation of `C6_amended_linear_backoff`: the first wait
of the mixed-failure trace is `30 * 1` seconds. -/
theorem C6_amended_linear_backoff_witness :
    0 < ((scrape_board_with_resilience c6attempts fetchNone thumbNone [] "b").2.2).length
    ∧ ((scrape_board_with_resilience c6attempts fetchNone thumbNone [] "b").2.2).getD 0 0
        = backoffDelay (c6attempts 0) (0 + 1) :=
  ⟨by decide, C6_amended_linear_backoff c6attempts fetchNone thumbNone [] "b" 0 (by decide)⟩

/-! ## C2 -/

/-- A pin element carrying the source-assigned id "1". -/
def e1elem : PinElem := { dataTestPinId := some "1", imgSrc := some "s1" }

/-- A pin element carrying the source-assigned id "2". -/
def e2elem : PinElem := { dataTestPinId := some "2", imgSrc := some "s2" }

/-- A DOM trace whose element count stalls at scroll 1 and grows again at
scroll 2: the second pin only becomes visible after two scrolls. -/
def c2elems : Nat → List PinElem := fun t =>
  if t ≤ 1 then [e1elem] else [e1elem, e2elem]

/-- C2 counterexample: on `c2elems` the crawl stops after a single
pagination step whose scroll produced no new pin elements
(`scroll_attempts = 1`), returning only pin "1" and never reaching pin
"2", which the page would have shown at scroll 2 and which is extractable.
The code keeps no `consecutiveNoNewPages` counter at all: one stalled
scroll ends the crawl, not three, contradicting the claimed
`noNewPageThreshold = 3` behaviour. -/
theorem C2_counterexample :
    ((extract_board_pins true c2elems "https://p.com/u/b/" 100).2 = 1)
    ∧ ((extract_board_pins true c2elems "https://p.com/u/b/" 100).1.map
        (fun p => p.pin_id) = ["1"])
    ∧ ((extract_pin_data e2elem "https://p.com/u/b/").isSome = true) := by
  decide

/-- C2 (amended). `extract_board_pins` maintains no no-new-pages counter:
whenever the scroll budget is not exhausted and `max_pins` is not reached,
the very first scroll that leaves the number of pin elements unchanged
ends the crawl — the effective threshold is one stalled scroll, and the
test compares raw element counts, not items unseen in the session or the
dedup store. -/
theorem C2_amended_first_stall_stops (elems : Nat → List PinElem) (url : String)
    (mp fuel t : Nat) (acc : List ExtractedPin)
    (hfuel : 1 ≤ fuel) (hacc : acc.length < mp)
    (hstall : (elems (t + 1)).length = (elems t).length) :
    extract_loop elems url mp fuel t acc
      = (collect_pins url mp (elems t) acc, t + 1) := by
  cases fuel with
  | zero => exact absurd hfuel (by omega)
  | succ f => simp [extract_loop, hacc, hstall]

/-- Concrete instantiation of `C2_amended_first_stall_stops` on the
stalling DOM trace. -/
theorem C2_amended_first_stall_stops_witness :
    1 ≤ max_scroll_attempts
    ∧ ([] : List ExtractedPin).length < 100
    ∧ (c2elems (0 + 1)).length = (c2elems 0).length
    ∧ extract_loop c2elems "https://p.com/u/b/" 100 max_scroll_attempts 0 []
        = (collect_pins "https://p.com/u/b/" 100 (c2elems 0) [], 0 + 1) :=
  ⟨by decide, by decide, by decide,
    C2_amended_first_stall_stops c2elems "https://p.com/u/b/" 100
      max_scroll_attempts 0 [] (by decide) (by decide) (by decide)⟩

/-! ## C3 -/

/-- C3 counterexample: when the initial page cannot be loaded
(`initialLoadOk = false`, the `WebDriverWait` timed out), the crawl
returns the normal empty result `([], 0)` instead of raising: the
`except` at pinterest_scraper.py lines 329-331 swallows the exception.
No `SourceUnavailableError` exists anywhere in the repository, and a
caller receiving `[]` cannot distinguish a broken source from an
exhausted one. -/
theorem C3_counterexample :
    extract_board_pins false c2elems "https://p.com/u/b/" 100 = ([], 0) := by
  decide

/-- C3 (amended). For every page oracle, board URL and pin budget, when
the initial page cannot be produced `extract_board_pins` catches the
failure and returns the empty pin list with zero scroll steps — the same
shape of result an exhausted feed produces — rather than raising any
error the caller could distinguish. -/
theorem C3_amended_initial_failure_returns_empty (elems : Nat → List PinElem)
    (url : String) (mp : Nat) :
    extract_board_pins false elems url mp = ([], 0) := by
  simp [extract_board_pins]

/-! ## C9 -/

lemma bytesToHex_length : ∀ l : List Nat, (bytesToHex l).length = 2 * l.length := by
  intro l
  induction l with
  | nil => rfl
  | cons b bs ih => simp [bytesToHex, ih]; omega

lemma md5Bytes_length (m : List Nat) : (md5Bytes m).length = 16 := by
  simp [md5Bytes, wordLEBytes]

lemma generate_pin_id_length (u t : String) : (generate_pin_id u t).length = 12 := by
  simp [generate_pin_id, String.length, List.length_take, bytesToHex_length,
    md5Bytes_length]

/-- The automated scraper's item constructed from board
"https://pinterest.com/u/board", pin number 123456 and title number 1. -/
def c9pin : AutoPin := auto_pin_for "https://pinterest.com/u/board" 123456 1

/-- C9 counterexample: the automated scraper ingests this item (it passes
the dedup check against an empty tracker), yet its stored identifier is
the fabricated hash `md5("<url>_Fashion Item 1")[:12] = "44078668edab"`,
not the source-assigned `/pin/` segment "123456" of its URL — the
pipeline does fabricate identifiers for items it ingests. -/
theorem C9_counterexample :
    (scrape_board_step [] c9pin).2 = some c9pin
    ∧ c9pin.pin_id = "44078668edab"
    ∧ pinIdFromHref c9pin.url = some "123456"
    ∧ c9pin.pin_id ≠ "123456" := by
  decide

lemma extract_pin_id_link_case (e : PinElem) (pid : String)
    (h : (match e.linkHref with
          | none => none
          | some href =>
            match pinIdFromHref href with
            | some s => if s = "" then none else some s
            | none => none) = some pid) :
    ∃ href, e.linkHref = some href ∧ pinIdFromHref href = some pid := by
  cases hl : e.linkHref with
  | none =>
    simp only [hl] at h
    exact Option.noConfusion h
  | some href =>
    simp only [hl] at h
    cases hp : pinIdFromHref href with
    | none =>
      simp only [hp] at h
      exact Option.noConfusion h
    | some s =>
      simp only [hp] at h
      by_cases hs : s = ""
      · rw [if_pos hs] at h
        cases h
      · rw [if_neg hs] at h
        injection h with h'
        exact ⟨href, rfl, by rw [hp, h']⟩

lemma extract_pin_id_provenance (e : PinElem) (pid : String)
    (h : extract_pin_id e = some pid) :
    e.dataTestPinId = some pid
    ∨ ∃ href, e.linkHref = some href ∧ pinIdFromHref href = some pid := by
  unfold extract_pin_id at h
  cases he : e.dataTestPinId with
  | some a =>
    simp only [he, Option.getD_some] at h
    by_cases ha : a = ""
    · subst ha
      rw [if_neg (by simp)] at h
      exact Or.inr (extract_pin_id_link_case e pid h)
    · rw [if_pos ha] at h
      injection h with h'
      exact Or.inl (by rw [h'])
  | none =>
    simp only [he, Option.getD_none] at h
    rw [if_neg (by simp)] at h
    exact Or.inr (extract_pin_id_link_case e pid h)

lemma extract_pin_data_pin_id (e : PinElem) (bu : String) (pd : ExtractedPin)
    (h : extract_pin_data e bu = some pd) :
    extract_pin_id e = some pd.pin_id := by
  unfold extract_pin_data at h
  split at h
  · cases h
  · rename_i pid hid
    split at h
    · cases h
    · rename_i src hsrc
      split at h
      · cases h
      · rename_i bn hbn
        injection h with h'
        rw [hid, ← h']

/-- C9 (amended). The DOM scraper's identifiers are genuinely
source-provided: whenever `_extract_pin_data` yields an item, its id is
the element's `data-test-pin-id` attribute or the `/pin/` segment of the
element's link (elements offering neither are dropped).  The automated
scraper, however, generates ids itself: `_generate_pin_id` always
produces a 12-character MD5-digest prefix, whatever the source URL and
title. -/
theorem C9_amended_id_provenance (e : PinElem) (bu : String) (pd : ExtractedPin)
    (h : extract_pin_data e bu = some pd) :
    (e.dataTestPinId = some pd.pin_id
      ∨ ∃ href, e.linkHref = some href ∧ pinIdFromHref href = some pd.pin_id)
    ∧ ∀ u t, (generate_pin_id u t).length = 12 := by
  refine ⟨?_, fun u t => generate_pin_id_length u t⟩
  exact extract_pin_id_provenance e pd.pin_id (extract_pin_data_pin_id e bu pd h)

/-- The item `_extract_pin_data` yields for `e1elem` on board
"https://p.com/u/b/". -/
def c9pd : ExtractedPin :=
  { pin_id := "1", title := "", description := "", image_url := "s1",
    board_name := "b", board_url := "https://p.com/u/b/", author := "u" }

/-- Concrete instantiation of `C9_amended_id_provenance` at `e1elem`. -/
theorem C9_amended_id_provenance_witness :
    extract_pin_data e1elem "https://p.com/u/b/" = some c9pd
    ∧ ((e1elem.dataTestPinId = some c9pd.pin_id
        ∨ ∃ href, e1elem.linkHref = some href ∧ pinIdFromHref href = some c9pd.pin_id)
      ∧ ∀ u t, (generate_pin_id u t).length = 12) :=
  ⟨by decide, C9_amended_id_provenance e1elem "https://p.com/u/b/" c9pd (by decide)⟩
